import Mathlib

/-!
Verification development for the cloud-saves checkpoint engine (src/index.js).

The JavaScript source is shallowly embedded: every git subprocess invocation is
abstracted as a `GitCmd` whose outcome `{success, stdout, stderr}` is supplied
by an oracle environment `Env`; config-file reads/writes and date parsing are
likewise oracle-driven; `fs`-level exceptions are modelled by env flags that
make the corresponding step throw, and the try/catch/finally structure of each
operation is translated explicitly.  Machine-level details (process spawning,
timers) appear only through their observable result shapes.
-/

namespace CloudSaves

/-! JS string primitives, implemented over `List Char` by structural recursion
so that every definition evaluates inside the kernel. -/

/-- Split a character list at every occurrence of the (non-empty) separator;
the fuel is consumed one unit per inspected character, so `l.length` always
suffices. -/
def splitChars (sep : List Char) : Nat → List Char → List Char → List (List Char)
  | _, [], acc => [acc.reverse]
  | 0, l, acc => [acc.reverse ++ l]
  | fuel + 1, c :: rest, acc =>
    if sep.isPrefixOf (c :: rest) then
      acc.reverse :: splitChars sep fuel (List.drop (sep.length - 1) rest) []
    else splitChars sep fuel rest (c :: acc)

/-- JS `String.prototype.split` with a non-empty string separator. -/
def jsSplit (s sep : String) : List String :=
  (splitChars sep.data s.data.length s.data []).map fun cs => ⟨cs⟩

/-- JS `String.prototype.startsWith`. -/
def jsStartsWith (s pre : String) : Bool :=
  pre.data.isPrefixOf s.data

/-- JS `String.prototype.endsWith`. -/
def jsEndsWith (s suf : String) : Bool :=
  suf.data.isSuffixOf s.data

/-- The whitespace class JS `trim` strips (the characters this corpus can
produce). -/
def isJsSpace (c : Char) : Bool :=
  c = ' ' || c = '\t' || c = '\n' || c = '\r'

/-- JS `String.prototype.trim`. -/
def jsTrim (s : String) : String :=
  ⟨((s.data.dropWhile isJsSpace).reverse.dropWhile isJsSpace).reverse⟩

/-- Join string pieces with a separator (`Array.prototype.join`). -/
def jsJoin (sep : String) : List String → String
  | [] => ""
  | [x] => x
  | x :: xs => x ++ sep ++ jsJoin sep xs

/-- JS `String.prototype.includes`: substring containment. -/
def jsIncludes (s pat : String) : Bool :=
  (jsSplit s pat).length > 1

/-- JS `String.prototype.replace(pat, repl)` with a string pattern: replaces
only the first occurrence. -/
def jsReplaceFirst (s pat repl : String) : String :=
  match jsSplit s pat with
  | [] => s
  | x :: rest =>
    if rest.isEmpty then s
    else x ++ repl ++ jsJoin pat rest

/-- JS `str.trim().split('\n')[0]` used to pick the first line of a tag
message. -/
def firstLine (s : String) : String :=
  (jsSplit s "\n").headD ""

/-! ## Checkpoint naming codec

`Buffer.from(name).toString('base64url')` (createSave line 335) and
`Buffer.from(encodedName, 'base64url').toString('utf8')` (listSaves line 471):
UTF-8 encoding of the display name followed by unpadded URL-safe base64. -/

/-- UTF-8 encoding of a single unicode scalar value, as byte values. -/
def utf8EncodeChar (c : Char) : List Nat :=
  if c.toNat < 0x80 then [c.toNat]
  else if c.toNat < 0x800 then [0xC0 + c.toNat / 64, 0x80 + c.toNat % 64]
  else if c.toNat < 0x10000 then
    [0xE0 + c.toNat / 4096, 0x80 + c.toNat / 64 % 64, 0x80 + c.toNat % 64]
  else
    [0xF0 + c.toNat / 262144, 0x80 + c.toNat / 4096 % 64,
     0x80 + c.toNat / 64 % 64, 0x80 + c.toNat % 64]

/-- UTF-8 encoding of a string (the byte content of `Buffer.from(name)`). -/
def utf8Encode (s : String) : List Nat :=
  (s.data.map utf8EncodeChar).flatten

/-- Decode one UTF-8 scalar value from the front of a byte list, returning the
character and the remaining bytes; `none` on a malformed prefix. -/
def utf8DecodeStep : List Nat → Option (Char × List Nat)
  | [] => none
  | b0 :: t0 =>
    if b0 < 0x80 then some (Char.ofNat b0, t0)
    else if b0 < 0xC0 then none
    else if b0 < 0xE0 then
      match t0 with
      | b1 :: t1 =>
        if 0x80 ≤ b1 ∧ b1 < 0xC0 then
          some (Char.ofNat ((b0 - 0xC0) * 64 + (b1 - 0x80)), t1)
        else none
      | [] => none
    else if b0 < 0xF0 then
      match t0 with
      | b1 :: b2 :: t2 =>
        if (0x80 ≤ b1 ∧ b1 < 0xC0) ∧ (0x80 ≤ b2 ∧ b2 < 0xC0) then
          some (Char.ofNat ((b0 - 0xE0) * 4096 + (b1 - 0x80) * 64 + (b2 - 0x80)), t2)
        else none
      | _ => none
    else if b0 < 0x100 then
      match t0 with
      | b1 :: b2 :: b3 :: t3 =>
        if (0x80 ≤ b1 ∧ b1 < 0xC0) ∧ (0x80 ≤ b2 ∧ b2 < 0xC0) ∧ (0x80 ≤ b3 ∧ b3 < 0xC0) then
          some (Char.ofNat ((b0 - 0xF0) * 262144 + (b1 - 0x80) * 4096 +
            (b2 - 0x80) * 64 + (b3 - 0x80)), t3)
        else none
      | _ => none
    else none

/-- Fuel-driven UTF-8 decoding loop; each step consumes at least one byte, so
fuel equal to the byte count always suffices. -/
def utf8DecodeAux : Nat → List Nat → Option (List Char)
  | _, [] => some []
  | 0, _ :: _ => none
  | fuel + 1, b :: t =>
    match utf8DecodeStep (b :: t) with
    | some (c, rest) => (utf8DecodeAux fuel rest).map (fun cs => c :: cs)
    | none => none

/-- UTF-8 decoding of a byte list back to unicode scalar values; `none` on a
malformed sequence. -/
def utf8Decode (l : List Nat) : Option (List Char) :=
  utf8DecodeAux l.length l

/-- The base64url alphabet: index `n` (0 ≤ n < 64) to its digit character. -/
def sexToChar (n : Nat) : Char :=
  Char.ofNat
    (if n < 26 then 65 + n
     else if n < 52 then 97 + (n - 26)
     else if n < 62 then 48 + (n - 52)
     else if n = 62 then 45
     else 95)

/-- Inverse of the base64url alphabet; `none` for characters outside it. -/
def charToSex (c : Char) : Option Nat :=
  let v := c.toNat
  if 65 ≤ v ∧ v ≤ 90 then some (v - 65)
  else if 97 ≤ v ∧ v ≤ 122 then some (v - 97 + 26)
  else if 48 ≤ v ∧ v ≤ 57 then some (v - 48 + 52)
  else if v = 45 then some 62
  else if v = 95 then some 63
  else none

/-- Bytes to 6-bit groups (big-endian within each 3-byte block), with the
unpadded tail encoding base64url uses. -/
def toSextets : List Nat → List Nat
  | [] => []
  | [a] => [a / 4, a % 4 * 16]
  | [a, b] => [a / 4, a % 4 * 16 + b / 16, b % 16 * 4]
  | a :: b :: c :: rest =>
    a / 4 :: (a % 4 * 16 + b / 16) :: (b % 16 * 4 + c / 64) :: c % 64 :: toSextets rest

/-- 6-bit groups back to bytes (a trailing lone sextet carries no byte). -/
def fromSextets : List Nat → List Nat
  | [] => []
  | [_] => []
  | [a, b] => [a * 4 + b / 16]
  | [a, b, c] => [a * 4 + b / 16, b % 16 * 16 + c / 4]
  | a :: b :: c :: d :: rest =>
    (a * 4 + b / 16) :: (b % 16 * 16 + c / 4) :: (c % 4 * 64 + d) :: fromSextets rest

/-- Unpadded URL-safe base64 of a byte list (`Buffer.toString('base64url')`). -/
def base64urlEncode (bytes : List Nat) : String :=
  ⟨(toSextets bytes).map sexToChar⟩

/-- Base64url decoding (`Buffer.from(token, 'base64url')`): characters outside
the alphabet are skipped, as Node's forgiving decoder does. -/
def base64urlDecode (s : String) : List Nat :=
  fromSextets (s.data.filterMap charToSex)

/-- `encode`: the tag-identity encoding of a display name (index.js line 335). -/
def encodeName (name : String) : String :=
  base64urlEncode (utf8Encode name)

/-- `decode`: the listing-side decoding of an encoded token (index.js line 471);
`none` models a decode failure. -/
def decodeName (token : String) : Option String :=
  (utf8Decode (base64urlDecode token)).map fun cs => ⟨cs⟩

/-! ### Codec roundtrip lemmas -/

theorem fromSextets_toSextets (l : List Nat) (h : ∀ x ∈ l, x < 256) :
    fromSextets (toSextets l) = l := by
  match l with
  | [] => rfl
  | [a] =>
    have ha : a < 256 := h a (by simp)
    simp only [toSextets, fromSextets, List.cons.injEq, and_true]
    omega
  | [a, b] =>
    have ha : a < 256 := h a (by simp)
    have hb : b < 256 := h b (by simp)
    simp only [toSextets, fromSextets, List.cons.injEq, and_true]
    omega
  | a :: b :: c :: rest =>
    have ha : a < 256 := h a (by simp)
    have hb : b < 256 := h b (by simp)
    have hc : c < 256 := h c (by simp)
    have ih := fromSextets_toSextets rest (fun x hx => h x (by simp [hx]))
    simp only [toSextets, fromSextets, List.cons.injEq]
    refine ⟨by omega, by omega, by omega, ih⟩

theorem toSextets_lt (l : List Nat) (h : ∀ x ∈ l, x < 256) :
    ∀ s ∈ toSextets l, s < 64 := by
  match l with
  | [] => intro s hs; simp [toSextets] at hs
  | [a] =>
    have ha : a < 256 := h a (by simp)
    intro s hs
    simp only [toSextets, List.mem_cons, List.not_mem_nil, or_false] at hs
    rcases hs with h1 | h1 <;> omega
  | [a, b] =>
    have ha : a < 256 := h a (by simp)
    have hb : b < 256 := h b (by simp)
    intro s hs
    simp only [toSextets, List.mem_cons, List.not_mem_nil, or_false] at hs
    rcases hs with h1 | h1 | h1 <;> omega
  | a :: b :: c :: rest =>
    have ha : a < 256 := h a (by simp)
    have hb : b < 256 := h b (by simp)
    have hc : c < 256 := h c (by simp)
    have ih := toSextets_lt rest (fun x hx => h x (by simp [hx]))
    intro s hs
    simp only [toSextets, List.mem_cons] at hs
    rcases hs with h1 | h1 | h1 | h1 | h1
    · omega
    · omega
    · omega
    · omega
    · exact ih s h1

theorem charToSex_sexToChar (n : Nat) (h : n < 64) :
    charToSex (sexToChar n) = some n := by
  interval_cases n <;> decide

theorem utf8EncodeChar_lt (c : Char) : ∀ b ∈ utf8EncodeChar c, b < 256 := by
  have hv : c.toNat < 0xd800 ∨ (0xdfff < c.toNat ∧ c.toNat < 0x110000) := c.valid
  intro b hb
  unfold utf8EncodeChar at hb
  split at hb
  · simp only [List.mem_cons, List.not_mem_nil, or_false] at hb; omega
  · split at hb
    · simp only [List.mem_cons, List.not_mem_nil, or_false] at hb
      rcases hb with h1 | h1 <;> omega
    · split at hb
      · simp only [List.mem_cons, List.not_mem_nil, or_false] at hb
        rcases hb with h1 | h1 | h1 <;> omega
      · simp only [List.mem_cons, List.not_mem_nil, or_false] at hb
        rcases hb with h1 | h1 | h1 | h1 <;> omega

theorem utf8Encode_lt (s : String) : ∀ b ∈ utf8Encode s, b < 256 := by
  intro b hb
  simp only [utf8Encode, List.mem_flatten, List.mem_map] at hb
  obtain ⟨l, ⟨c, _, rfl⟩, hbl⟩ := hb
  exact utf8EncodeChar_lt c b hbl

theorem utf8DecodeStep_encode (c : Char) (rest : List Nat) :
    utf8DecodeStep (utf8EncodeChar c ++ rest) = some (c, rest) := by
  have hv : c.toNat < 0xd800 ∨ (0xdfff < c.toNat ∧ c.toNat < 0x110000) := c.valid
  unfold utf8EncodeChar
  by_cases h1 : c.toNat < 0x80
  · rw [if_pos h1]
    simp only [List.cons_append, List.nil_append, utf8DecodeStep]
    rw [if_pos h1, Char.ofNat_toNat]
  · by_cases h2 : c.toNat < 0x800
    · rw [if_neg h1, if_pos h2]
      simp only [List.cons_append, List.nil_append, utf8DecodeStep]
      rw [if_neg (by omega), if_neg (by omega), if_pos (by omega),
        if_pos (by constructor <;> omega)]
      rw [show (0xC0 + c.toNat / 64 - 0xC0) * 64 + (0x80 + c.toNat % 64 - 0x80)
          = c.toNat by omega]
      rw [Char.ofNat_toNat]
    · by_cases h3 : c.toNat < 0x10000
      · rw [if_neg h1, if_neg h2, if_pos h3]
        simp only [List.cons_append, List.nil_append, utf8DecodeStep]
        rw [if_neg (by omega), if_neg (by omega), if_neg (by omega), if_pos (by omega),
          if_pos (by refine ⟨⟨?_, ?_⟩, ?_, ?_⟩ <;> omega)]
        rw [show (0xE0 + c.toNat / 4096 - 0xE0) * 4096 +
            (0x80 + c.toNat / 64 % 64 - 0x80) * 64 + (0x80 + c.toNat % 64 - 0x80)
            = c.toNat by omega]
        rw [Char.ofNat_toNat]
      · rw [if_neg h1, if_neg h2, if_neg h3]
        simp only [List.cons_append, List.nil_append, utf8DecodeStep]
        rw [if_neg (by omega), if_neg (by omega), if_neg (by omega),
          if_neg (by omega), if_pos (by omega),
          if_pos (by refine ⟨⟨?_, ?_⟩, ⟨?_, ?_⟩, ?_, ?_⟩ <;> omega)]
        rw [show (0xF0 + c.toNat / 262144 - 0xF0) * 262144 +
            (0x80 + c.toNat / 4096 % 64 - 0x80) * 4096 +
            (0x80 + c.toNat / 64 % 64 - 0x80) * 64 + (0x80 + c.toNat % 64 - 0x80)
            = c.toNat by omega]
        rw [Char.ofNat_toNat]

theorem utf8EncodeChar_ne_nil (c : Char) : utf8EncodeChar c ≠ [] := by
  unfold utf8EncodeChar
  split
  · simp
  · split
    · simp
    · split <;> simp

theorem utf8DecodeAux_encode (cs : List Char) (fuel : Nat)
    (hf : ((cs.map utf8EncodeChar).flatten).length ≤ fuel) :
    utf8DecodeAux fuel ((cs.map utf8EncodeChar).flatten) = some cs := by
  induction cs generalizing fuel with
  | nil => cases fuel <;> rfl
  | cons c cs ih =>
    simp only [List.map_cons, List.flatten_cons] at hf ⊢
    have hs := utf8DecodeStep_encode c ((cs.map utf8EncodeChar).flatten)
    match he : utf8EncodeChar c with
    | [] => exact absurd he (utf8EncodeChar_ne_nil c)
    | b :: bs =>
      match fuel with
      | 0 =>
        rw [he] at hf
        simp only [List.cons_append, List.length_cons] at hf
        omega
      | f + 1 =>
        rw [he, List.cons_append] at hs
        rw [List.cons_append]
        rw [show utf8DecodeAux (f + 1) (b :: (bs ++ (cs.map utf8EncodeChar).flatten)) =
            (match utf8DecodeStep (b :: (bs ++ (cs.map utf8EncodeChar).flatten)) with
             | some (c2, rest) => (utf8DecodeAux f rest).map (fun l => c2 :: l)
             | none => none) from rfl]
        rw [hs]
        have hf2 : ((cs.map utf8EncodeChar).flatten).length ≤ f := by
          rw [he] at hf
          simp only [List.cons_append, List.length_cons, List.length_append] at hf
          omega
        show (utf8DecodeAux f ((cs.map utf8EncodeChar).flatten)).map
          (fun l => c :: l) = some (c :: cs)
        rw [ih f hf2]
        rfl

theorem utf8Decode_encode (cs : List Char) :
    utf8Decode ((cs.map utf8EncodeChar).flatten) = some cs :=
  utf8DecodeAux_encode cs _ (Nat.le_refl _)

theorem filterMap_charToSex_map (l : List Nat) (h : ∀ s ∈ l, s < 64) :
    (l.map sexToChar).filterMap charToSex = l := by
  induction l with
  | nil => rfl
  | cons s srest ih =>
    have hs := h s (by simp)
    simp only [List.map_cons, List.filterMap_cons, charToSex_sexToChar s hs]
    rw [ih (fun x hx => h x (by simp [hx]))]

theorem base64url_roundtrip (bytes : List Nat) (h : ∀ b ∈ bytes, b < 256) :
    base64urlDecode (base64urlEncode bytes) = bytes := by
  unfold base64urlEncode base64urlDecode
  rw [show (⟨(toSextets bytes).map sexToChar⟩ : String).data
      = (toSextets bytes).map sexToChar from rfl]
  rw [filterMap_charToSex_map _ (toSextets_lt bytes h)]
  exact fromSextets_toSextets bytes h

theorem decodeName_encodeName (name : String) :
    decodeName (encodeName name) = some name := by
  unfold decodeName encodeName
  rw [base64url_roundtrip _ (utf8Encode_lt name)]
  unfold utf8Encode
  rw [utf8Decode_encode name.data]
  rfl

/-! ## Data model

`config.json` contents (DEFAULT_CONFIG, index.js lines 62-76), plus the
process-wide operation lock `currentOperation` (line 79). -/

/-- `config.current_save`: the Current-Checkpoint Pointer. -/
structure CurSave where
  tag : String
  loaded_at : String
deriving DecidableEq, Repr

/-- `config.last_save`: the Last-Checkpoint Record. -/
structure LastSave where
  name : String
  tag : String
  timestamp : String
  description : String
deriving DecidableEq, Repr

/-- The persisted configuration document. -/
structure Config where
  repo_url : String := ""
  branch : String := "main"
  username : String := ""
  github_token : String := ""
  display_name : String := ""
  is_authorized : Bool := false
  last_save : Option LastSave := none
  current_save : Option CurSave := none
  has_temp_stash : Bool := false
  autoSaveEnabled : Bool := false
  autoSaveInterval : Int := 30
  autoSaveTargetTag : String := ""
deriving DecidableEq, Repr

/-- Mutable process state: the config store (the JSON file) and the operation
lock `currentOperation`. -/
structure St where
  store : Config
  lock : Option String
deriving DecidableEq, Repr

/-- Outcome of one git subprocess invocation as surfaced by `runGitCommand`. -/
structure GitResult where
  success : Bool
  stdout : String
  stderr : String
deriving DecidableEq, Repr

/-- The git command lines the engine issues, keyed by their semantic
arguments. -/
inductive GitCmd where
  | tagList (tag : String)
  | tagListFormat
  | tagInfo (tag : String)
  | addAll
  | status
  | commit (msg : String)
  | symbolicRef
  | revParse (ref : String)
  | revParseVerify (ref : String)
  | revList (tag : String)
  | tagCreate (force : Bool) (tag : String) (msg : String) (commit : Option String)
  | tagDelete (tag : String)
  | pushBranch (branch : String)
  | pushTag (tag : String) (force : Bool)
  | pushDeleteTag (tag : String)
  | fetchTags
  | fetchOriginTags
  | fetchBranch (branch : String)
  | checkout (ref : String)
  | stashPush
  | stashPop
  | stashApply
  | stashDrop
  | stashList
  | diffNameStatus (ref1 ref2 : String)
  | showNameStatus (ref : String)
deriving DecidableEq, Repr

/-- Oracle environment: outcomes of git commands, the clock, JS date parsing
(`new Date(s)` then `toISOString`, `none` for an invalid date), and whether
config-file reads/writes throw (fs-level exceptions). -/
structure Env where
  git : GitCmd → GitResult
  now : Nat
  nowISO : String
  parseDate : String → Option String
  readThrows : Bool
  saveThrows : Bool
  throwMsg : String

/-- Generic `{success, message}` operation result (with the `warning` flag some
paths attach). -/
structure JRes where
  success : Bool
  message : String
  warning : Bool := false
deriving DecidableEq, Repr

/-- `config.branch || DEFAULT_BRANCH`. -/
def branchOr (c : Config) : String :=
  if c.branch = "" then "main" else c.branch

/-! ## deleteSave (index.js lines 575-618) -/

/-- `deleteSave(tagName)`: verify tag exists, delete local tag, delete remote
tag (failure downgrades to success-with-warning and returns early), then clear
`current_save` if it referenced the deleted tag.  The `finally` clause resets
the lock on every path. -/
def deleteSave (E : Env) (tagName : String) (st : St) : JRes × St × List GitCmd :=
  let r1 := E.git (.tagList tagName)
  let t1 : List GitCmd := [.tagList tagName]
  if ¬(r1.success = true) ∨ jsTrim r1.stdout = "" then
    (⟨false, "找不到指定的存档", false⟩, ⟨st.store, none⟩, t1)
  else
    let r2 := E.git (.tagDelete tagName)
    let t2 := t1 ++ [.tagDelete tagName]
    if ¬(r2.success = true) then
      (⟨false, "删除本地存档失败", false⟩, ⟨st.store, none⟩, t2)
    else
      let r3 := E.git (.pushDeleteTag tagName)
      let t3 := t2 ++ [.pushDeleteTag tagName]
      if ¬(r3.success = true) then
        (⟨true, "本地存档已删除，但删除远程存档失败，可能是网络问题或权限问题", true⟩,
          ⟨st.store, none⟩, t3)
      else
        if E.readThrows then
          (⟨false, "删除存档时发生错误: " ++ E.throwMsg, false⟩, ⟨st.store, none⟩, t3)
        else
          let config := st.store
          match config.current_save with
          | some cs =>
            if cs.tag = tagName then
              if E.saveThrows then
                (⟨false, "删除存档时发生错误: " ++ E.throwMsg, false⟩, ⟨st.store, none⟩, t3)
              else
                (⟨true, "存档删除成功", false⟩,
                  ⟨{ config with current_save := none }, none⟩, t3)
            else (⟨true, "存档删除成功", false⟩, ⟨st.store, none⟩, t3)
          | none => (⟨true, "存档删除成功", false⟩, ⟨st.store, none⟩, t3)

/-! ## loadSave (index.js lines 499-572) -/

/-- Result of `loadSave`: the success payload carries `stashCreated`. -/
structure LoadRes where
  success : Bool
  message : String
  stashCreated : Bool := false
deriving DecidableEq, Repr

/-- `loadSave(tagName)`: verify tag, stash dirty working tree (`-u`, with the
fixed message), resolve the tag's commit, check it out (detached HEAD); on a
failure after a stash was created, `git stash pop` is attempted before the
failure is returned; on success record `current_save` and, if a stash was
created, set `has_temp_stash`. -/
def loadSave (E : Env) (tagName : String) (st : St) : LoadRes × St × List GitCmd :=
  let r1 := E.git (.tagList tagName)
  let t1 : List GitCmd := [.tagList tagName]
  if ¬(r1.success = true) ∨ jsTrim r1.stdout = "" then
    (⟨false, "找不到指定的存档", false⟩, ⟨st.store, none⟩, t1)
  else
    let rs := E.git .status
    let t2 := t1 ++ [.status]
    let dirty := rs.success = true ∧ jsTrim rs.stdout ≠ ""
    let stashCreated := dirty ∧ (E.git .stashPush).success = true ∧
      ¬(jsIncludes (E.git .stashPush).stdout "No local changes to save" = true)
    let t3 := if dirty then t2 ++ [.stashPush] else t2
    let rc := E.git (.revList tagName)
    let t4 := t3 ++ [.revList tagName]
    if ¬(rc.success = true) then
      if stashCreated then
        (⟨false, "获取存档提交失败", false⟩, ⟨st.store, none⟩, t4 ++ [.stashPop])
      else
        (⟨false, "获取存档提交失败", false⟩, ⟨st.store, none⟩, t4)
    else
      let commit := jsTrim rc.stdout
      let rco := E.git (.checkout commit)
      let t5 := t4 ++ [.checkout commit]
      if ¬(rco.success = true) then
        if stashCreated then
          (⟨false, "切换到存档失败", false⟩, ⟨st.store, none⟩, t5 ++ [.stashPop])
        else
          (⟨false, "切换到存档失败", false⟩, ⟨st.store, none⟩, t5)
      else
        if E.readThrows then
          (⟨false, "加载存档时发生错误: " ++ E.throwMsg, false⟩, ⟨st.store, none⟩, t5)
        else
          let config := st.store
          let config1 := { config with current_save := some ⟨tagName, E.nowISO⟩ }
          let config2 :=
            if stashCreated then { config1 with has_temp_stash := true } else config1
          if E.saveThrows then
            (⟨false, "加载存档时发生错误: " ++ E.throwMsg, false⟩, ⟨st.store, none⟩, t5)
          else
            if stashCreated then
              (⟨true, "存档加载成功", true⟩, ⟨config2, none⟩, t5)
            else
              (⟨true, "存档加载成功", false⟩, ⟨config2, none⟩, t5)

/-! ## listSaves (index.js lines 422-496) -/

/-- One entry of the checkpoint listing. -/
structure SaveEntry where
  name : String
  tag : String
  createdAt : String
  updatedAt : String
  description : String
  creator : String
deriving DecidableEq, Repr

/-- Exit of a step that may throw a JS exception. -/
inductive OpExit (α : Type) where
  | ret (a : α)
  | threw (msg : String)
deriving DecidableEq, Repr

/-- The updated-time extraction of listSaves (lines 447-457): find the first
body line starting with `Last Updated:`, strip the label, parse the rest as a
date; fall back to the creation date when the line is absent or unparseable. -/
def computeUpdatedAt (parseDate : String → Option String) (body createdAt : String) :
    String :=
  let bodyLines := jsSplit body "\n"
  match bodyLines.find? (fun l => jsStartsWith l "Last Updated:") with
  | some lastUpdatedLine =>
    let timestampStr := jsTrim (jsReplaceFirst lastUpdatedLine "Last Updated:" "")
    match parseDate timestampStr with
    | some iso => iso
    | none => createdAt
  | none => createdAt

/-- The tag-name pattern `/^save_\d+_(.+)$/` (lines 467, 642, 1494): returns
the captured encoded-name fragment. -/
def tagNameMatch (s : String) : Option String :=
  if jsStartsWith s "save_" = true then
    let rest := s.data.drop 5
    let digits := rest.takeWhile Char.isDigit
    let afterDigits := rest.drop digits.length
    match afterDigits with
    | '_' :: tail => if digits ≠ [] ∧ tail ≠ [] then some ⟨tail⟩ else none
    | _ => none
  else none

/-- The listing-side display name of a tag: decode the captured fragment,
falling back to the raw fragment on decode failure and to the whole tag when
the pattern does not match (lines 466-476). -/
def displayNameOfTag (tagName : String) : String :=
  match tagNameMatch tagName with
  | some encoded =>
    match decodeName encoded with
    | some n => n
    | none => encoded
  | none => tagName

/-- Build one listing entry from one NUL-separated `git tag --format` line
(lines 435-487).  `new Date(parts[1]).toISOString()` throws when the creation
date is unparseable; entries with fewer than 5 fields are dropped. -/
def saveOfLine (E : Env) (line : String) : OpExit (Option SaveEntry) :=
  let parts := jsSplit line "\x00"
  if parts.length < 5 then .ret none
  else
    match E.parseDate (parts.getD 1 "") with
    | none => .threw E.throwMsg
    | some createdAt =>
      let tagName := parts.getD 0 ""
      let taggerName := if parts.getD 2 "" = "" then "未知" else parts.getD 2 ""
      let subject := parts.getD 3 ""
      let body := parts.getD 4 ""
      let updatedAt := computeUpdatedAt E.parseDate body createdAt
      .ret (some
        { name := displayNameOfTag tagName
          tag := tagName
          createdAt := createdAt
          updatedAt := updatedAt
          description := jsTrim subject
          creator := taggerName })

/-- Sequential `.map(...)` over the listing lines with JS exception
propagation, followed by `.filter(Boolean)`. -/
def mapSaves (E : Env) : List String → OpExit (List SaveEntry)
  | [] => .ret []
  | line :: rest =>
    match saveOfLine E line with
    | .threw m => .threw m
    | .ret none =>
      match mapSaves E rest with
      | .threw m => .threw m
      | .ret es => .ret es
    | .ret (some e) =>
      match mapSaves E rest with
      | .threw m => .threw m
      | .ret es => .ret (e :: es)

/-- Result of `listSaves`. -/
structure ListRes where
  success : Bool
  message : String := ""
  saves : List SaveEntry := []
deriving DecidableEq, Repr

/-- `listSaves()`: fetch remote tags (fatal on failure), enumerate `save_*`
tags with the NUL-separated format, build entries; a thrown per-line error is
caught by the outer catch; the lock is reset on every path. -/
def listSaves (E : Env) (st : St) : ListRes × St × List GitCmd :=
  let r1 := E.git .fetchTags
  let t1 : List GitCmd := [.fetchTags]
  if ¬(r1.success = true) then
    (⟨false, "从远程获取标签失败", []⟩, ⟨st.store, none⟩, t1)
  else
    let r2 := E.git .tagListFormat
    let t2 := t1 ++ [.tagListFormat]
    if ¬(r2.success = true) then
      (⟨false, "获取存档标签列表失败", []⟩, ⟨st.store, none⟩, t2)
    else
      let lines := (jsSplit (jsTrim r2.stdout) "\n").filter (· ≠ "")
      match mapSaves E lines with
      | .threw m => (⟨false, "获取存档列表时发生错误: " ++ m, []⟩, ⟨st.store, none⟩, t2)
      | .ret saves => (⟨true, "", saves⟩, ⟨st.store, none⟩, t2)

/-! ## createSave (index.js lines 323-419) -/

/-- Continuation of `createSave` after the add/status/commit steps:
tag creation, branch push (non-fatal), tag push (fatal, with no rollback of
the local tag), then the `last_save` record update. -/
def createSaveRest (E : Env) (name description tagName branchToPush : String)
    (commitNeeded : Bool) (store : Config) (tr : List GitCmd) :
    JRes × St × List GitCmd :=
  let tagMessage := if description = "" then "存档: " ++ name else description
  let fullTagMessage := tagMessage ++ "\nLast Updated: " ++ E.nowISO
  let rt := E.git (.tagCreate false tagName fullTagMessage none)
  let tr1 := tr ++ [.tagCreate false tagName fullTagMessage none]
  if ¬(rt.success = true) then
    (⟨false, "创建存档标签失败", false⟩, ⟨store, none⟩, tr1)
  else
    let rsym := E.git .symbolicRef
    let tr2 := tr1 ++ [.symbolicRef]
    let isOnBranch := rsym.success = true ∧ jsTrim rsym.stdout ≠ ""
    let currentBranch := jsTrim rsym.stdout
    let tr3 :=
      if isOnBranch ∧ currentBranch = branchToPush ∧ commitNeeded = true then
        tr2 ++ [.pushBranch currentBranch]
      else tr2
    let rp := E.git (.pushTag tagName false)
    let tr4 := tr3 ++ [.pushTag tagName false]
    if ¬(rp.success = true) then
      (⟨false, "推送存档标签到远程失败", false⟩, ⟨store, none⟩, tr4)
    else
      if E.saveThrows then
        (⟨false, "创建存档时发生错误: " ++ E.throwMsg, false⟩, ⟨store, none⟩, tr4)
      else
        (⟨true, "存档创建成功", false⟩,
          ⟨{ store with last_save := some ⟨name, tagName, E.nowISO, description⟩ }, none⟩,
          tr4)

/-- `createSave(name, description)`: stage everything, commit when the working
tree is dirty (`nothing to commit` is benign), create the annotated tag
`save_<now>_<encodedName>`, push the branch when on the configured branch and a
commit was made (non-fatal), push the tag (fatal), record `last_save`. -/
def createSave (E : Env) (name description : String) (st : St) :
    JRes × St × List GitCmd :=
  if E.readThrows then
    (⟨false, "创建存档时发生错误: " ++ E.throwMsg, false⟩, ⟨st.store, none⟩, [])
  else
    let config := st.store
    let branchToPush := branchOr config
    let tagName := "save_" ++ toString E.now ++ "_" ++ encodeName name
    let r1 := E.git .addAll
    let t1 : List GitCmd := [.addAll]
    if ¬(r1.success = true) then
      (⟨false, "添加文件到暂存区失败", false⟩, ⟨st.store, none⟩, t1)
    else
      let rs := E.git .status
      let t2 := t1 ++ [.status]
      let commitNeeded0 := rs.success = true ∧ jsTrim rs.stdout ≠ ""
      if commitNeeded0 then
        let rc := E.git (.commit ("存档: " ++ name))
        let t3 := t2 ++ [.commit ("存档: " ++ name)]
        if ¬(rc.success = true) then
          if jsIncludes rc.stderr "nothing to commit" = true then
            createSaveRest E name description tagName branchToPush false st.store t3
          else
            (⟨false, "提交更改失败", false⟩, ⟨st.store, none⟩, t3)
        else
          createSaveRest E name description tagName branchToPush true st.store t3
      else
        createSaveRest E name description tagName branchToPush false st.store t2

/-! ## renameSave (index.js lines 621-712) -/

/-- Result of `renameSave`. -/
structure RenameRes where
  success : Bool
  message : String
  oldTag : String := ""
  newTag : String := ""
  newName : String := ""
  warning : Bool := false
deriving DecidableEq, Repr

/-- Display name decoded from the old tag for the rename comparison
(lines 641-645): decode failure keeps the whole old tag name. -/
def renameDecodedName (oldTagName : String) : String :=
  match tagNameMatch oldTagName with
  | some encoded =>
    match decodeName encoded with
    | some n => n
    | none => oldTagName
  | none => oldTagName

/-- `renameSave(oldTagName, newName, description)`: same decoded name means an
in-place force-update and force-push of the same tag; a different name mints a
fresh identity pointing at the same commit, pushes it (rolling back the local
tag on push failure), then best-effort deletes the old tag and rewrites
`current_save` if it referenced the old tag. -/
def renameSave (E : Env) (oldTagName newName description : String) (st : St) :
    RenameRes × St × List GitCmd :=
  if E.readThrows then
    (⟨false, "重命名存档时发生错误: " ++ E.throwMsg, "", "", "", false⟩,
      ⟨st.store, none⟩, [])
  else
    let config := st.store
    let r1 := E.git (.tagList oldTagName)
    let t1 : List GitCmd := [.tagList oldTagName]
    if ¬(r1.success = true) ∨ jsTrim r1.stdout = "" then
      (⟨false, "找不到指定的存档", "", "", "", false⟩, ⟨st.store, none⟩, t1)
    else
      let rc := E.git (.revList oldTagName)
      let t2 := t1 ++ [.revList oldTagName]
      if ¬(rc.success = true) then
        (⟨false, "获取存档提交失败", "", "", "", false⟩, ⟨st.store, none⟩, t2)
      else
        let commit := jsTrim rc.stdout
        let oldDecodedName := renameDecodedName oldTagName
        let newDescription := if description = "" then "存档: " ++ newName else description
        let fullNewMessage := newDescription ++ "\nLast Updated: " ++ E.nowISO
        if oldDecodedName = newName then
          let ru := E.git (.tagCreate true oldTagName fullNewMessage (some commit))
          let t3 := t2 ++ [.tagCreate true oldTagName fullNewMessage (some commit)]
          if ¬(ru.success = true) then
            (⟨false, "更新本地标签失败", "", "", "", false⟩, ⟨st.store, none⟩, t3)
          else
            let rf := E.git (.pushTag oldTagName true)
            let t4 := t3 ++ [.pushTag oldTagName true]
            if ¬(rf.success = true) then
              (⟨false, "强制推送更新后的标签失败，请检查权限或网络", "", "", "", true⟩,
                ⟨st.store, none⟩, t4)
            else
              (⟨true, "存档描述和更新时间已更新", oldTagName, oldTagName, newName, false⟩,
                ⟨st.store, none⟩, t4)
        else
          let newTagName := "save_" ++ toString E.now ++ "_" ++ encodeName newName
          let rt := E.git (.tagCreate false newTagName fullNewMessage (some commit))
          let t3 := t2 ++ [.tagCreate false newTagName fullNewMessage (some commit)]
          if ¬(rt.success = true) then
            (⟨false, "创建新存档标签失败", "", "", "", false⟩, ⟨st.store, none⟩, t3)
          else
            let rp := E.git (.pushTag newTagName false)
            let t4 := t3 ++ [.pushTag newTagName false]
            if ¬(rp.success = true) then
              (⟨false, "推送新存档标签到远程失败", "", "", "", false⟩,
                ⟨st.store, none⟩, t4 ++ [.tagDelete newTagName])
            else
              let t5 := t4 ++ [.tagDelete oldTagName, .pushDeleteTag oldTagName]
              match config.current_save with
              | some cs =>
                if cs.tag = oldTagName then
                  if E.saveThrows then
                    (⟨false, "重命名存档时发生错误: " ++ E.throwMsg, "", "", "", false⟩,
                      ⟨st.store, none⟩, t5)
                  else
                    (⟨true, "存档重命名成功", oldTagName, newTagName, newName, false⟩,
                      ⟨{ config with current_save := some ⟨newTagName, cs.loaded_at⟩ }, none⟩,
                      t5)
                else
                  (⟨true, "存档重命名成功", oldTagName, newTagName, newName, false⟩,
                    ⟨st.store, none⟩, t5)
              | none =>
                (⟨true, "存档重命名成功", oldTagName, newTagName, newName, false⟩,
                  ⟨st.store, none⟩, t5)

/-! ## getSaveDiff (index.js lines 715-780) -/

/-- One `{status, fileName}` pair of a name-status diff. -/
structure FileChange where
  status : String
  fileName : String
deriving DecidableEq, Repr

/-- Result of `getSaveDiff`. -/
structure DiffRes where
  success : Bool
  message : String := ""
  changedFiles : List FileChange := []
deriving DecidableEq, Repr

/-- Git's fixed empty-tree object hash (line 728). -/
def emptyTreeHash : String := "4b825dc642cb6eb9a060e54bf8d69288fbee4904"

/-- Parse one `--name-status` output line: tab-split, first field is the
status, the rest rejoined is the file name. -/
def parseNameStatusLine (line : String) : FileChange :=
  let parts := jsSplit line "\t"
  ⟨parts.headD "", jsJoin "\t" parts.tail⟩

/-- `getSaveDiff(ref1, ref2)`: verify both refs; when `ref1` does not resolve
and literally ends in `^` or `~1`, substitute the empty-tree hash; when the
diff then fails with `ref1` equal to the empty-tree hash, fall back to
`git show --name-status ref2` with every file classified `A`. -/
def getSaveDiff (E : Env) (ref1 ref2 : String) (st : St) :
    DiffRes × St × List GitCmd :=
  let rv1 := E.git (.revParseVerify ref1)
  let t1 : List GitCmd := [.revParseVerify ref1]
  let parentSuffix := jsEndsWith ref1 "^" = true ∨ jsEndsWith ref1 "~1" = true
  if ¬(rv1.success = true) ∧ ref1 ≠ emptyTreeHash ∧ ¬parentSuffix then
    (⟨false, "找不到或无效的引用: " ++ ref1, []⟩, ⟨st.store, none⟩, t1)
  else
    let ref3 :=
      if ¬(rv1.success = true) ∧ ref1 ≠ emptyTreeHash ∧ parentSuffix then emptyTreeHash
      else ref1
    let rv2 := E.git (.revParseVerify ref2)
    let t2 := t1 ++ [.revParseVerify ref2]
    if ¬(rv2.success = true) then
      (⟨false, "找不到或无效的引用: " ++ ref2, []⟩, ⟨st.store, none⟩, t2)
    else
      let rd := E.git (.diffNameStatus ref3 ref2)
      let t3 := t2 ++ [.diffNameStatus ref3 ref2]
      if ¬(rd.success = true) then
        if ref3 = emptyTreeHash then
          let rs := E.git (.showNameStatus ref2)
          let t4 := t3 ++ [.showNameStatus ref2]
          if ¬(rs.success = true) then
            (⟨false, "获取初始提交文件列表失败", []⟩, ⟨st.store, none⟩, t4)
          else
            let files := ((jsSplit (jsTrim rs.stdout) "\n").filter (· ≠ "")).map
              (fun line => ⟨"A", jsJoin "\t" (jsSplit line "\t").tail⟩)
            (⟨true, "", files⟩, ⟨st.store, none⟩, t4)
        else
          (⟨false, "获取变更文件列表失败", []⟩, ⟨st.store, none⟩, t3)
      else
        (⟨true, "",
          ((jsSplit (jsTrim rd.stdout) "\n").filter (· ≠ "")).map parseNameStatusLine⟩,
          ⟨st.store, none⟩, t3)

/-! ## Overwrite core, shared by the manual route (lines 1391-1520) and
`performAutoSave` (lines 896-986); the two code paths are line-for-line
duplicates up to messages, factored here with the messages as parameters. -/

/-- Step 0 of an overwrite: recover the base description from the existing
tag's message, defaulting to `Overwrite of <tag>`. -/
def overwriteDescription (E : Env) (tagName : String) : String :=
  let r := E.git (.tagInfo tagName)
  if r.success = true ∧ jsTrim r.stdout ≠ "" then firstLine (jsTrim r.stdout)
  else "Overwrite of " ++ tagName

/-- Steps 1-4 of an overwrite: stage, commit when dirty (`nothing to commit`
benign), resolve the commit hash via `rev-parse HEAD`, push the branch after a
real commit (non-fatal). -/
def resolveOverwriteCommit (E : Env) (commitMsg commitFailPrefix branchToUse : String) :
    OpExit String × List GitCmd :=
  let ra := E.git .addAll
  let t1 : List GitCmd := [.addAll]
  if ¬(ra.success = true) then (.threw ("添加到暂存区失败: " ++ ra.stderr), t1)
  else
    let rs := E.git .status
    let t2 := t1 ++ [.status]
    if rs.success = true ∧ jsTrim rs.stdout ≠ "" then
      let rc := E.git (.commit commitMsg)
      let t3 := t2 ++ [.commit commitMsg]
      if ¬(rc.success = true) then
        if jsIncludes rc.stderr "nothing to commit" = true then
          let rh := E.git (.revParse "HEAD")
          let t4 := t3 ++ [.revParse "HEAD"]
          if ¬(rh.success = true) then (.threw "获取当前 HEAD 提交哈希失败", t4)
          else (.ret (jsTrim rh.stdout), t4)
        else (.threw (commitFailPrefix ++ rc.stderr), t3)
      else
        let rh := E.git (.revParse "HEAD")
        let t4 := t3 ++ [.revParse "HEAD"]
        if ¬(rh.success = true) then (.threw "获取新提交哈希失败", t4)
        else (.ret (jsTrim rh.stdout), t4 ++ [.pushBranch branchToUse])
    else
      let rh := E.git (.revParse "HEAD")
      let t3 := t2 ++ [.revParse "HEAD"]
      if ¬(rh.success = true) then (.threw "获取当前 HEAD 提交哈希失败", t3)
      else (.ret (jsTrim rh.stdout), t3)

/-- Steps 5-7 of an overwrite: delete the old tag locally and remotely
(non-fatal), re-create the tag under the same identity at the resolved commit,
push it; on push failure delete the just-created local tag and throw. -/
def overwriteTail (E : Env) (tagName originalDescription newCommitHash : String) :
    OpExit Unit × List GitCmd :=
  let t1 : List GitCmd := [.tagDelete tagName, .pushDeleteTag tagName]
  let fullMsg := originalDescription ++ "\nLast Updated: " ++ E.nowISO
  let rt := E.git (.tagCreate false tagName fullMsg (some newCommitHash))
  let t2 := t1 ++ [.tagCreate false tagName fullMsg (some newCommitHash)]
  if ¬(rt.success = true) then
    (.threw ("创建新标签 " ++ tagName ++ " 失败: " ++ rt.stderr), t2)
  else
    let rp := E.git (.pushTag tagName false)
    let t3 := t2 ++ [.pushTag tagName false]
    if ¬(rp.success = true) then
      (.threw ("推送新标签 " ++ tagName ++ " 到远程失败: " ++ rp.stderr),
        t3 ++ [.tagDelete tagName])
    else (.ret (), t3)

/-- Responses of the manual overwrite route. -/
inductive OwOut where
  | busy (message : String)
  | unauthorized (message : String)
  | ok (message : String)
  | fail (message : String)
deriving DecidableEq, Repr

/-- `router.post('/saves/:tagName/overwrite')` (lines 1391-1520): busy check,
lock acquisition, authorization check, the shared overwrite sequence, then the
`last_save` rewrite when it referenced this tag; catch converts any thrown
error to a failure response; finally releases the lock. -/
def overwriteRoute (E : Env) (tagName : String) (st : St) :
    OwOut × St × List GitCmd :=
  match st.lock with
  | some op => (.busy ("正在进行操作: " ++ op), st, [])
  | none =>
    if E.readThrows then
      (.fail ("覆盖存档失败: " ++ E.throwMsg), ⟨st.store, none⟩, [])
    else
      let config := st.store
      if ¬(config.is_authorized = true) then
        (.unauthorized "未授权，请先连接仓库", ⟨st.store, none⟩, [])
      else
        let originalDescription := overwriteDescription E tagName
        let t0 : List GitCmd := [.tagInfo tagName]
        match resolveOverwriteCommit E ("Overwrite save: " ++ tagName)
            "创建覆盖提交失败: " (branchOr config) with
        | (.threw m, tr) => (.fail ("覆盖存档失败: " ++ m), ⟨st.store, none⟩, t0 ++ tr)
        | (.ret hash, tr) =>
          match overwriteTail E tagName originalDescription hash with
          | (.threw m, tr2) =>
            (.fail ("覆盖存档失败: " ++ m), ⟨st.store, none⟩, t0 ++ tr ++ tr2)
          | (.ret _, tr2) =>
            match config.last_save with
            | some ls =>
              if ls.tag = tagName then
                if E.saveThrows then
                  (.fail ("覆盖存档失败: " ++ E.throwMsg), ⟨st.store, none⟩,
                    t0 ++ tr ++ tr2)
                else
                  let newLast : LastSave :=
                    ⟨renameDecodedName tagName, tagName, E.nowISO, originalDescription⟩
                  (.ok "存档覆盖成功",
                    ⟨{ config with last_save := some newLast }, none⟩,
                    t0 ++ tr ++ tr2)
              else (.ok "存档覆盖成功", ⟨st.store, none⟩, t0 ++ tr ++ tr2)
            | none => (.ok "存档覆盖成功", ⟨st.store, none⟩, t0 ++ tr ++ tr2)

/-- `performAutoSave()` (lines 896-986): silently skip when the lock is held
(no state change at all); otherwise take the lock, re-check
authorized/enabled/target, run the shared overwrite sequence against the
configured target tag; errors are caught and logged (returned here as
`some message`); `last_save` is never touched; finally releases the lock. -/
def performAutoSave (E : Env) (st : St) : Option String × St × List GitCmd :=
  match st.lock with
  | some _ => (none, st, [])
  | none =>
    if E.readThrows then (some E.throwMsg, ⟨st.store, none⟩, [])
    else
      let config := st.store
      if ¬(config.is_authorized = true ∧ config.autoSaveEnabled = true ∧
          config.autoSaveTargetTag ≠ "") then
        (none, ⟨st.store, none⟩, [])
      else
        let targetTag := config.autoSaveTargetTag
        let originalDescription := overwriteDescription E targetTag
        let t0 : List GitCmd := [.tagInfo targetTag]
        match resolveOverwriteCommit E ("Auto Save Overwrite: " ++ targetTag)
            "创建自动存档提交失败: " (branchOr config) with
        | (.threw m, tr) => (some m, ⟨st.store, none⟩, t0 ++ tr)
        | (.ret hash, tr) =>
          match overwriteTail E targetTag originalDescription hash with
          | (.threw m, tr2) => (some m, ⟨st.store, none⟩, t0 ++ tr ++ tr2)
          | (.ret _, tr2) => (none, ⟨st.store, none⟩, t0 ++ tr ++ tr2)

/-! ## Temporary-stash operations (index.js lines 856-893); these plain async
functions do not touch the operation lock; their uncaught throws propagate to
the route's catch. -/

/-- `applyTempStash()`: refuse when the flag is off, apply slot 0, clear the
flag. -/
def applyTempStash (E : Env) (store : Config) :
    OpExit (JRes × Config) × List GitCmd :=
  if E.readThrows then (.threw E.throwMsg, [])
  else if ¬(store.has_temp_stash = true) then
    (.ret (⟨false, "No temporary stash found", false⟩, store), [])
  else
    let r := E.git .stashApply
    if ¬(r.success = true) then
      (.ret (⟨false, "Failed to apply stash", false⟩, store), [.stashApply])
    else if E.saveThrows then (.threw E.throwMsg, [.stashApply])
    else
      (.ret (⟨true, "Temporary stash applied successfully", false⟩,
        { store with has_temp_stash := false }), [.stashApply])

/-- `discardTempStash()`: refuse when the flag is off, drop slot 0, clear the
flag. -/
def discardTempStash (E : Env) (store : Config) :
    OpExit (JRes × Config) × List GitCmd :=
  if E.readThrows then (.threw E.throwMsg, [])
  else if ¬(store.has_temp_stash = true) then
    (.ret (⟨false, "No temporary stash found", false⟩, store), [])
  else
    let r := E.git .stashDrop
    if ¬(r.success = true) then
      (.ret (⟨false, "Failed to discard stash", false⟩, store), [.stashDrop])
    else if E.saveThrows then (.threw E.throwMsg, [.stashDrop])
    else
      (.ret (⟨true, "Temporary stash discarded", false⟩,
        { store with has_temp_stash := false }), [.stashDrop])

/-! ## HTTP route wrappers (index.js lines 1259-1388): each mutating entry
point rejects with 409 and the in-flight operation name while
`currentOperation` is non-null. -/

/-- Express-level response of a route around an operation result `α`. -/
inductive RouteOut (α : Type) where
  | busy (message : String)
  | badRequest (message : String)
  | serverError (message : String)
  | unhandled
  | result (a : α)
deriving DecidableEq, Repr

/-- `router.post('/saves')` (lines 1279-1293). -/
def createRoute (E : Env) (name description : String) (st : St) :
    RouteOut JRes × St × List GitCmd :=
  match st.lock with
  | some op => (.busy ("正在进行操作: " ++ op), st, [])
  | none =>
    if name = "" then (.badRequest "需要提供存档名称", st, [])
    else
      let (r, st2, tr) := createSave E name description st
      (.result r, st2, tr)

/-- `router.post('/saves/load')` (lines 1296-1310). -/
def loadRoute (E : Env) (tagName : String) (st : St) :
    RouteOut LoadRes × St × List GitCmd :=
  match st.lock with
  | some op => (.busy ("正在进行操作: " ++ op), st, [])
  | none =>
    if tagName = "" then (.badRequest "需要提供存档标签名", st, [])
    else
      let (r, st2, tr) := loadSave E tagName st
      (.result r, st2, tr)

/-- `router.delete('/saves/:tagName')` (lines 1313-1327). -/
def deleteRoute (E : Env) (tagName : String) (st : St) :
    RouteOut JRes × St × List GitCmd :=
  match st.lock with
  | some op => (.busy ("正在进行操作: " ++ op), st, [])
  | none =>
    if tagName = "" then (.badRequest "需要提供存档标签名", st, [])
    else
      let (r, st2, tr) := deleteSave E tagName st
      (.result r, st2, tr)

/-- `router.put('/saves/:oldTagName')` (lines 1330-1345). -/
def renameRoute (E : Env) (oldTagName newName description : String) (st : St) :
    RouteOut RenameRes × St × List GitCmd :=
  match st.lock with
  | some op => (.busy ("正在进行操作: " ++ op), st, [])
  | none =>
    if oldTagName = "" ∨ newName = "" then
      (.badRequest "需要提供旧存档标签名和新名称", st, [])
    else
      let (r, st2, tr) := renameSave E oldTagName newName description st
      (.result r, st2, tr)

/-- `router.get('/saves/diff')` (lines 1348-1362). -/
def diffRoute (E : Env) (tag1 tag2 : String) (st : St) :
    RouteOut DiffRes × St × List GitCmd :=
  match st.lock with
  | some op => (.busy ("正在进行操作: " ++ op), st, [])
  | none =>
    if tag1 = "" ∨ tag2 = "" then (.badRequest "需要提供两个存档标签名", st, [])
    else
      let (r, st2, tr) := getSaveDiff E tag1 tag2 st
      (.result r, st2, tr)

/-- `router.get('/saves')` (lines 1259-1276): busy check, an un-guarded config
read (a throw there escapes the handler), pre-fetch of remote tags and branch
when authorized, then `listSaves`. -/
def listRoute (E : Env) (st : St) : RouteOut ListRes × St × List GitCmd :=
  match st.lock with
  | some op => (.busy ("正在进行操作: " ++ op), st, [])
  | none =>
    if E.readThrows then (.unhandled, st, [])
    else
      let pre : List GitCmd :=
        if st.store.is_authorized = true then
          [.fetchOriginTags, .fetchBranch (branchOr st.store)]
        else []
      let (r, st2, tr) := listSaves E st
      (.result r, st2, pre ++ tr)

/-- `router.post('/stash/apply')` (lines 1365-1375): note the stash operations
never take the lock themselves; a throw inside is converted by the route's
catch. -/
def applyStashRoute (E : Env) (st : St) : RouteOut JRes × St × List GitCmd :=
  match st.lock with
  | some op => (.busy ("正在进行操作: " ++ op), st, [])
  | none =>
    match applyTempStash E st.store with
    | (.threw _, tr) => (.serverError "应用临时Stash失败", ⟨st.store, st.lock⟩, tr)
    | (.ret (r, store2), tr) => (.result r, ⟨store2, st.lock⟩, tr)

/-- `router.post('/stash/discard')` (lines 1378-1388). -/
def discardStashRoute (E : Env) (st : St) : RouteOut JRes × St × List GitCmd :=
  match st.lock with
  | some op => (.busy ("正在进行操作: " ++ op), st, [])
  | none =>
    match discardTempStash E st.store with
    | (.threw _, tr) => (.serverError "丢弃临时Stash失败", ⟨st.store, st.lock⟩, tr)
    | (.ret (r, store2), tr) => (.result r, ⟨store2, st.lock⟩, tr)

/-! ## runGitCommand internals (index.js lines 119-257)

Modelled one level deeper than the operations above: the primitive steps that
can throw (`readConfig`, `execPromise`, the spawn promise, the credential-URL
set/restore commands) are oracle `Except` values, and the try/catch/finally
structure is translated explicitly.  The restore steps attempted inside the
catch and finally blocks only touch the remote URL, which is outside the
result, so they cannot change the returned value; they are still part of the
environment for completeness. -/

/-- The failure payload JS exceptions carry here (`error.message`,
`error.stdout`, `error.stderr`). -/
structure ExecErr where
  message : String
  stdout : String := ""
  stderr : String := ""
deriving DecidableEq, Repr

/-- The `{success, stdout, stderr, error?}` shape `runGitCommand` returns. -/
structure GitRes where
  success : Bool
  stdout : String
  stderr : String
  error : Option String := none
deriving DecidableEq, Repr

/-- Options of `runGitCommand`: an optional working-directory override and
optional piped stdin. -/
structure RunOpts where
  cwd : Option String := none
  input : Option String := none

/-- Placeholder path of the managed data directory. -/
def dataDir : String := "<DATA_DIR>"

/-- Oracle for the throw-capable primitives inside `runGitCommand`. -/
structure ExecEnv where
  readConfigR : Except ExecErr Config
  getRemoteUrl : Except ExecErr String
  setTokenUrl : Except ExecErr Unit
  mainExec : Except ExecErr (String × String)
  restoreAfterSuccess : Except ExecErr Unit
  restoreInCatch : Except ExecErr Unit
  restoreInFinally : Except ExecErr Unit
  spawnRun : Except ExecErr (Nat × String × String)

/-- The `try` block of `runGitCommand` (lines 126-219): read config, read the
remote URL (failure tolerated as an empty URL), swap in the token URL for
network commands against the data directory, rewrite clone command lines
syntactically, then either the spawn path (piped input) or `execPromise` plus
the success-path URL restore.  Returns the outcome together with the
`temporarilySetUrl` flag as it stands at exit. -/
def runTryBody (command : String) (opts : RunOpts) (E : ExecEnv) :
    Except ExecErr GitRes × Bool :=
  match E.readConfigR with
  | .error e => (.error e, false)
  | .ok config =>
    let token := config.github_token
    let originalRepoUrl :=
      match E.getRemoteUrl with
      | .ok u => jsTrim u
      | .error _ => ""
    let executeIn := opts.cwd.getD dataDir
    let isNetworkCmd := jsStartsWith command "git push" = true ∨
      jsStartsWith command "git pull" = true ∨ jsStartsWith command "git fetch" = true ∨
      jsStartsWith command "git ls-remote" = true
    let wantToken := executeIn = dataDir ∧ token ≠ "" ∧ originalRepoUrl ≠ "" ∧
      jsStartsWith originalRepoUrl "https://" = true ∧ isNetworkCmd ∧
      ¬(jsIncludes originalRepoUrl "@github.com" = true)
    let tokenUrl :=
      jsReplaceFirst originalRepoUrl "https://" ("https://x-access-token:" ++ token ++ "@")
    let cloneSub := token ≠ "" ∧ originalRepoUrl ≠ "" ∧
      jsStartsWith originalRepoUrl "https://" = true ∧
      jsStartsWith command "git clone" = true ∧
      ¬(jsIncludes originalRepoUrl "@github.com" = true)
    let rest := fun (temporarilySetUrl : Bool) =>
      let _command1 :=
        if cloneSub then jsReplaceFirst command originalRepoUrl tokenUrl else command
      match opts.input with
      | some _ =>
        match E.spawnRun with
        | .error e => (Except.error e, temporarilySetUrl)
        | .ok (code, out, err) =>
          (Except.ok { success := code == 0, stdout := out, stderr := err,
                       error := none }, temporarilySetUrl)
      | none =>
        match E.mainExec with
        | .error e => (Except.error e, temporarilySetUrl)
        | .ok (out, err) =>
          if temporarilySetUrl = true ∧ executeIn = dataDir then
            match E.restoreAfterSuccess with
            | .error e => (Except.error e, true)
            | .ok _ =>
              (Except.ok { success := true, stdout := out, stderr := err,
                           error := none }, false)
          else
            (Except.ok { success := true, stdout := out, stderr := err,
                         error := none }, temporarilySetUrl)
    if wantToken then
      match E.setTokenUrl with
      | .error e => (.error e, false)
      | .ok _ => rest true
    else rest false

/-- `runGitCommand(command, options)`: the try block above, with the catch
block converting every thrown error to `{success:false, error, stdout,
stderr}` (lines 220-245); the catch-path and finally-path URL restores have
their own swallowing try/catch and cannot alter the returned value. -/
def runGitCommand (command : String) (opts : RunOpts) (E : ExecEnv) :
    Except ExecErr GitRes :=
  match runTryBody command opts E with
  | (.ok r, _) => .ok r
  | (.error e, _tempFlag) =>
    .ok { success := false, stdout := e.stdout, stderr := e.stderr,
          error := some e.message }

/-! # Claims -/

/-- C5: for every valid display name (arbitrary unicode text), decoding the
encoded token recovers the original name exactly:
`decode(encode(name)) == name`, where `encodeName` is the base64url encoding
used to build tag identities (createSave line 335) and `decodeName` is the
base64url decoding used by listing (listSaves line 471). -/
theorem C5_decode_encode_roundtrip (name : String) :
    decodeName (encodeName name) = some name :=
  decodeName_encodeName name

/-- C2: for every tag whose annotation message body contains a line starting
with `Last Updated:` (the first such line, as `Array.prototype.find` locates)
followed by a parseable timestamp, the listing reports that timestamp as
`updatedAt`; for a body with no such line, `updatedAt` equals the tag's
creation date. -/
theorem C2_updatedAt (parse : String → Option String) (body createdAt : String) :
    (∀ line t,
      (jsSplit body "\n").find? (fun l => jsStartsWith l "Last Updated:") = some line →
      parse (jsTrim (jsReplaceFirst line "Last Updated:" "")) = some t →
      computeUpdatedAt parse body createdAt = t) ∧
    ((jsSplit body "\n").find? (fun l => jsStartsWith l "Last Updated:") = none →
      computeUpdatedAt parse body createdAt = createdAt) := by
  constructor
  · intro line t hfind hparse
    simp only [computeUpdatedAt, hfind, hparse]
  · intro hfind
    simp only [computeUpdatedAt, hfind]

/-- Witness for C2 at a concrete body, timestamp parser and creation date. -/
theorem C2_updatedAt_witness :
    computeUpdatedAt (fun s => if s = "2024-01-02T03:04:05Z" then some "P" else none)
      "desc\nLast Updated: 2024-01-02T03:04:05Z" "C" = "P" ∧
    computeUpdatedAt (fun s => if s = "2024-01-02T03:04:05Z" then some "P" else none)
      "plain description" "C" = "C" := by
  constructor
  · exact (C2_updatedAt _ _ _).1 "Last Updated: 2024-01-02T03:04:05Z" "P"
      (by decide) (by decide)
  · exact (C2_updatedAt _ _ _).2 (by decide)

/-- C8: a scheduler tick (`performAutoSave`) issues git commands only when the
system is authorized, auto-save is enabled and a target tag is configured; and
when the operation lock is already held at the start of the tick, the tick
returns silently with no git command issued and the whole state (store and
lock alike) unchanged. -/
theorem C8_autosave_gating :
    (∀ (E : Env) (store : Config) (op : String),
      performAutoSave E ⟨store, some op⟩ = (none, ⟨store, some op⟩, [])) ∧
    (∀ (E : Env) (st : St),
      ¬(st.store.is_authorized = true ∧ st.store.autoSaveEnabled = true ∧
          st.store.autoSaveTargetTag ≠ "") →
      (performAutoSave E st).2.2 = [] ∧ (performAutoSave E st).2.1.store = st.store) := by
  constructor
  · intro E store op
    rfl
  · intro E st hcond
    obtain ⟨store, lock⟩ := st
    cases lock with
    | some op => exact ⟨rfl, rfl⟩
    | none =>
      unfold performAutoSave
      by_cases hrt : E.readThrows
      · simp [hrt]
      · simp only [hrt, if_false, Bool.false_eq_true, ite_false, if_neg hrt]
        rw [if_pos hcond]
        exact ⟨rfl, rfl⟩

/-- Concrete environment where the remote tag deletion fails and everything
else succeeds. -/
def envC1 : Env :=
  { git := fun c =>
      match c with
      | .pushDeleteTag _ => ⟨false, "", "denied"⟩
      | _ => ⟨true, "save_1_x", ""⟩
    now := 0, nowISO := "Z", parseDate := fun _ => none,
    readThrows := false, saveThrows := false, throwMsg := "boom" }

/-- State whose Current-Checkpoint Pointer references `save_1_x`. -/
def stC1 : St := ⟨{ current_save := some ⟨"save_1_x", "L"⟩ }, none⟩

/-- C1 counterexample: when the remote tag deletion fails, `deleteSave` returns
the success-with-warning result *before* reaching the pointer-clearing step, so
the Current-Checkpoint Pointer referencing the deleted tag is NOT cleared,
contradicting the claim that every overall-success result (including the
warning one) clears it. -/
theorem C1_counterexample :
    (deleteSave envC1 "save_1_x" stC1).1.success = true ∧
    (deleteSave envC1 "save_1_x" stC1).1.warning = true ∧
    stC1.store.current_save = some ⟨"save_1_x", "L"⟩ ∧
    (deleteSave envC1 "save_1_x" stC1).2.1.store.current_save = some ⟨"save_1_x", "L"⟩ := by
  decide

/-- C1 (amended): on the fully-successful result (no warning) `deleteSave`
clears the Current-Checkpoint Pointer when it referenced the deleted tag; on
the warning result the pointer is left unchanged (see `C1_counterexample`);
and deleting any tag the pointer does not reference leaves the whole store
unchanged. -/
theorem C1_delete_pointer (E : Env) (tagName : String) (st : St) :
    ((deleteSave E tagName st).1.success = true →
      (deleteSave E tagName st).1.warning = false →
      ∀ cs, st.store.current_save = some cs → cs.tag = tagName →
        (deleteSave E tagName st).2.1.store.current_save = none) ∧
    ((deleteSave E tagName st).1.warning = true →
      (deleteSave E tagName st).2.1.store = st.store) ∧
    ((∀ cs, st.store.current_save = some cs → cs.tag ≠ tagName) →
      (deleteSave E tagName st).2.1.store = st.store) := by
  rcases hcs : st.store.current_save with _ | cs <;>
    simp only [deleteSave, hcs] <;> split_ifs <;> simp_all

/-- Witness for C1 at an all-success environment. -/
theorem C1_delete_pointer_witness :
    (deleteSave
      { git := fun _ => ⟨true, "save_1_x", ""⟩, now := 0, nowISO := "Z",
        parseDate := fun _ => none, readThrows := false, saveThrows := false,
        throwMsg := "b" }
      "save_1_x" stC1).2.1.store.current_save = none := by
  exact (C1_delete_pointer _ "save_1_x" stC1).1 (by decide) (by decide)
    ⟨"save_1_x", "L"⟩ rfl rfl

/-- Concrete all-success environment with a clean working directory. -/
def envC7 : Env :=
  { git := fun c =>
      match c with
      | .status => ⟨true, "", ""⟩
      | _ => ⟨true, "x", ""⟩
    now := 0, nowISO := "Z", parseDate := fun _ => none,
    readThrows := false, saveThrows := false, throwMsg := "b" }

/-- State in which an interrupted-work record already exists. -/
def stC7 : St := ⟨{ has_temp_stash := true }, none⟩

/-- C7 counterexample: loading with a clean working directory does not force
the interrupted-work flag to false — it is left unchanged, so a previously-set
flag survives a successful clean load, contradicting the claim that a clean
load makes the flag end up false. -/
theorem C7_counterexample :
    (loadSave envC7 "t" stC7).1.success = true ∧
    jsTrim (envC7.git .status).stdout = "" ∧
    (loadSave envC7 "t" stC7).2.1.store.has_temp_stash = true := by
  decide

/-- C7 (amended): a successful load that created a stash sets the
interrupted-work flag; a load with a clean working directory leaves the flag
unchanged (see `C7_counterexample`: not necessarily false); and a failure at
the commit-resolution or checkout step after a stash was created restores the
stash (`git stash pop` appears in the trace) before the failure is returned. -/
theorem C7_load_stash (E : Env) (tagName : String) (st : St) :
    ((E.git (.tagList tagName)).success = true →
     jsTrim (E.git (.tagList tagName)).stdout ≠ "" →
     (E.git .status).success = true → jsTrim (E.git .status).stdout ≠ "" →
     (E.git .stashPush).success = true →
     ¬(jsIncludes (E.git .stashPush).stdout "No local changes to save" = true) →
     (E.git (.revList tagName)).success = true →
     (E.git (.checkout (jsTrim (E.git (.revList tagName)).stdout))).success = true →
     E.readThrows = false → E.saveThrows = false →
     (loadSave E tagName st).1.success = true ∧
       (loadSave E tagName st).1.stashCreated = true ∧
       (loadSave E tagName st).2.1.store.has_temp_stash = true) ∧
    (¬((E.git .status).success = true ∧ jsTrim (E.git .status).stdout ≠ "") →
      (loadSave E tagName st).2.1.store.has_temp_stash = st.store.has_temp_stash) ∧
    ((E.git (.tagList tagName)).success = true →
     jsTrim (E.git (.tagList tagName)).stdout ≠ "" →
     (E.git .status).success = true → jsTrim (E.git .status).stdout ≠ "" →
     (E.git .stashPush).success = true →
     ¬(jsIncludes (E.git .stashPush).stdout "No local changes to save" = true) →
     (¬((E.git (.revList tagName)).success = true) ∨
       ¬((E.git (.checkout (jsTrim (E.git (.revList tagName)).stdout))).success = true)) →
     (loadSave E tagName st).1.success = false ∧
       GitCmd.stashPop ∈ (loadSave E tagName st).2.2) := by
  simp only [loadSave]
  split_ifs <;> simp_all
  all_goals constructor <;> (intros; simp_all)

/-- Witness for C7: a dirty load with a created stash against an all-success
environment. -/
theorem C7_load_stash_witness :
    (loadSave
      { git := fun c =>
          match c with
          | .status => ⟨true, " M f", ""⟩
          | .stashPush => ⟨true, "Saved working directory", ""⟩
          | _ => ⟨true, "x", ""⟩
        now := 0, nowISO := "Z", parseDate := fun _ => none,
        readThrows := false, saveThrows := false, throwMsg := "b" }
      "t" ⟨{}, none⟩).2.1.store.has_temp_stash = true := by
  exact ((C7_load_stash _ "t" ⟨{}, none⟩).1 (by decide) (by decide) (by decide)
    (by decide) (by decide) (by decide) (by decide) (by decide) rfl rfl).2.2

/-- The empty-tree hash carries no parent-selector suffix. -/
theorem emptyTreeHash_no_suffix :
    jsEndsWith emptyTreeHash "^" = false ∧ jsEndsWith emptyTreeHash "~1" = false := by
  decide

/-- C6: in `getSaveDiff(ref1, ref2)`, when `ref1` fails to resolve and its
literal form ends in `^` or `~1`, the diff is issued against the fixed
empty-tree hash instead of the operation failing; and when that diff fails
while `ref1` is the empty-tree substitute, the result lists the files of
`git show --name-status ref2`, every one classified `A`. -/
theorem C6_diff_empty_tree (E : Env) (ref1 ref2 : String) (st : St)
    (h1 : ¬((E.git (.revParseVerify ref1)).success = true))
    (hsuf : jsEndsWith ref1 "^" = true ∨ jsEndsWith ref1 "~1" = true)
    (h2 : (E.git (.revParseVerify ref2)).success = true) :
    GitCmd.diffNameStatus emptyTreeHash ref2 ∈ (getSaveDiff E ref1 ref2 st).2.2 ∧
    (¬((E.git (.diffNameStatus emptyTreeHash ref2)).success = true) →
      (E.git (.showNameStatus ref2)).success = true →
      (getSaveDiff E ref1 ref2 st).1.success = true ∧
      (getSaveDiff E ref1 ref2 st).1.changedFiles =
        ((jsSplit (jsTrim (E.git (.showNameStatus ref2)).stdout) "\n").filter (· ≠ "")).map
          (fun line => ⟨"A", jsJoin "\t" (jsSplit line "\t").tail⟩) ∧
      ∀ f ∈ (getSaveDiff E ref1 ref2 st).1.changedFiles, f.status = "A") := by
  have hne : ref1 ≠ emptyTreeHash := by
    intro hEq
    rcases hsuf with h | h <;> rw [hEq] at h
    · exact absurd h (by rw [emptyTreeHash_no_suffix.1]; decide)
    · exact absurd h (by rw [emptyTreeHash_no_suffix.2]; decide)
  simp only [getSaveDiff]
  split_ifs <;> simp_all
  all_goals rintro f x hx hne rfl; rfl

/-- Witness for C6 at a concrete environment. -/
theorem C6_diff_empty_tree_witness :
    (getSaveDiff
      { git := fun c =>
          match c with
          | .revParseVerify "t^" => ⟨false, "", "unknown revision"⟩
          | .diffNameStatus _ _ => ⟨false, "", "bad revision"⟩
          | .showNameStatus _ => ⟨true, "A\tf1.txt\nM\tsub dir\tf2.txt", ""⟩
          | _ => ⟨true, "x", ""⟩
        now := 0, nowISO := "Z", parseDate := fun _ => none,
        readThrows := false, saveThrows := false, throwMsg := "b" }
      "t^" "t" ⟨{}, none⟩).1.changedFiles =
      [⟨"A", "f1.txt"⟩, ⟨"A", "sub dir\tf2.txt"⟩] := by
  exact ((C6_diff_empty_tree _ "t^" "t" ⟨{}, none⟩ (by decide) (Or.inl (by decide))
    (by decide)).2 (by decide) (by decide)).2.1.trans (by decide)

set_option maxHeartbeats 1600000 in
/-- C10: when `createSave` has created the local annotated tag but the final
push of that tag to the remote fails, it returns the failure result while
leaving the newly created local tag in place — no `git tag -d` ever appears in
its trace, unlike the rename and overwrite paths — and without updating the
last-checkpoint record: the whole config store is unchanged. -/
theorem C10_createSave_push_failure (E : Env) (name description : String) (st : St)
    (h0 : E.readThrows = false)
    (h1 : (E.git .addAll).success = true)
    (h2 : (E.git (.commit ("存档: " ++ name))).success = true ∨
      jsIncludes (E.git (.commit ("存档: " ++ name))).stderr "nothing to commit" = true)
    (h3 : ∀ m, (E.git (.tagCreate false ("save_" ++ toString E.now ++ "_" ++
      encodeName name) m none)).success = true)
    (h4 : ¬((E.git (.pushTag ("save_" ++ toString E.now ++ "_" ++ encodeName name)
      false)).success = true)) :
    (createSave E name description st).1 = ⟨false, "推送存档标签到远程失败", false⟩ ∧
    (createSave E name description st).2.1.store = st.store ∧
    ∀ t, GitCmd.tagDelete t ∉ (createSave E name description st).2.2 := by
  simp only [createSave, createSaveRest, h0, Bool.false_eq_true, if_false]
  split_ifs <;> simp_all

/-- Witness for C10 at a concrete environment. -/
theorem C10_createSave_push_failure_witness :
    (createSave
      { git := fun c =>
          match c with
          | .pushTag _ _ => ⟨false, "", "remote rejected"⟩
          | _ => ⟨true, "", ""⟩
        now := 0, nowISO := "Z", parseDate := fun _ => none,
        readThrows := false, saveThrows := false, throwMsg := "b" }
      "n" "d" ⟨{}, none⟩).1 = ⟨false, "推送存档标签到远程失败", false⟩ ∧
    (createSave
      { git := fun c =>
          match c with
          | .pushTag _ _ => ⟨false, "", "remote rejected"⟩
          | _ => ⟨true, "", ""⟩
        now := 0, nowISO := "Z", parseDate := fun _ => none,
        readThrows := false, saveThrows := false, throwMsg := "b" }
      "n" "d" ⟨{}, none⟩).2.1.store = ({} : Config) := by
  refine ⟨(C10_createSave_push_failure _ "n" "d" ⟨{}, none⟩ rfl rfl
    (Or.inl rfl) (fun _ => rfl) (fun h => by exact absurd h (by decide))).1, ?_⟩
  exact (C10_createSave_push_failure _ "n" "d" ⟨{}, none⟩ rfl rfl
    (Or.inl rfl) (fun _ => rfl) (fun h => by exact absurd h (by decide))).2.1

/-- No tag-creation command is ever issued by the commit-resolution phase of
an overwrite. -/
theorem resolveOverwriteCommit_no_tagCreate (E : Env) (a b c : String) :
    ∀ (f : Bool) (t m : String) (cm : Option String),
      GitCmd.tagCreate f t m cm ∉ (resolveOverwriteCommit E a b c).2 := by
  intro f t m cm
  simp only [resolveOverwriteCommit]
  split_ifs <;> simp_all

/-- When staging succeeds, the commit either succeeds or is benign, and
`rev-parse HEAD` succeeds, the commit-resolution phase returns the trimmed
HEAD hash. -/
theorem resolveOverwriteCommit_ret (E : Env) (a b c : String)
    (h1 : (E.git .addAll).success = true)
    (h2 : (E.git (.commit a)).success = true ∨
      jsIncludes (E.git (.commit a)).stderr "nothing to commit" = true)
    (h3 : (E.git (.revParse "HEAD")).success = true) :
    ∃ tr, resolveOverwriteCommit E a b c =
      (.ret (jsTrim (E.git (.revParse "HEAD")).stdout), tr) := by
  simp only [resolveOverwriteCommit]
  split_ifs <;> simp_all

/-- Every tag-creation command issued by the overwrite tail carries exactly
the tag identity the overwrite started with. -/
theorem overwriteTail_tagCreate (E : Env) (tag d hc : String) :
    ∀ (f : Bool) (t m : String) (cm : Option String),
      GitCmd.tagCreate f t m cm ∈ (overwriteTail E tag d hc).2 → t = tag := by
  intro f t m cm hmem
  simp only [overwriteTail] at hmem
  split_ifs at hmem <;> simp_all

/-- When the re-created tag's push fails, the overwrite tail throws and its
trace ends with the failed push followed by the rollback deletion of the
just-created local tag. -/
theorem overwriteTail_pushFail (E : Env) (tag d hc : String)
    (h1 : ∀ m cm, (E.git (.tagCreate false tag m cm)).success = true)
    (h2 : ¬((E.git (.pushTag tag false)).success = true)) :
    overwriteTail E tag d hc =
      (.threw ("推送新标签 " ++ tag ++ " 到远程失败: " ++ (E.git (.pushTag tag false)).stderr),
        [.tagDelete tag, .pushDeleteTag tag,
         .tagCreate false tag (d ++ "\nLast Updated: " ++ E.nowISO) (some hc),
         .pushTag tag false, .tagDelete tag]) := by
  simp only [overwriteTail]
  split_ifs <;> simp_all

/-- C4: both overwrite variants (the manual route and the autonomous
scheduler's `performAutoSave`) re-create the tag under exactly the tag
identity they started with — every tag-creation command in their traces
carries that identity — and when the final push of the new tag fails, the
operation reports failure and first deletes the just-created local tag: the
trace ends with the failed push followed by `git tag -d` of that same tag. -/
theorem C4_overwrite_identity_rollback :
    (∀ (E : Env) (tagName : String) (st : St) (f : Bool) (t m : String)
        (cm : Option String),
      GitCmd.tagCreate f t m cm ∈ (overwriteRoute E tagName st).2.2 → t = tagName) ∧
    (∀ (E : Env) (tagName : String) (store : Config),
      store.is_authorized = true → E.readThrows = false →
      (E.git .addAll).success = true →
      (∀ m, (E.git (.commit m)).success = true ∨
        jsIncludes (E.git (.commit m)).stderr "nothing to commit" = true) →
      (E.git (.revParse "HEAD")).success = true →
      (∀ m cm, (E.git (.tagCreate false tagName m cm)).success = true) →
      ¬((E.git (.pushTag tagName false)).success = true) →
      (∃ msg, (overwriteRoute E tagName ⟨store, none⟩).1 = .fail msg) ∧
      (∃ pre, (overwriteRoute E tagName ⟨store, none⟩).2.2 =
        pre ++ [.pushTag tagName false, .tagDelete tagName])) ∧
    (∀ (E : Env) (st : St) (f : Bool) (t m : String) (cm : Option String),
      GitCmd.tagCreate f t m cm ∈ (performAutoSave E st).2.2 →
        t = st.store.autoSaveTargetTag) ∧
    (∀ (E : Env) (store : Config),
      store.is_authorized = true → store.autoSaveEnabled = true →
      store.autoSaveTargetTag ≠ "" → E.readThrows = false →
      (E.git .addAll).success = true →
      (∀ m, (E.git (.commit m)).success = true ∨
        jsIncludes (E.git (.commit m)).stderr "nothing to commit" = true) →
      (E.git (.revParse "HEAD")).success = true →
      (∀ m cm, (E.git (.tagCreate false store.autoSaveTargetTag m cm)).success = true) →
      ¬((E.git (.pushTag store.autoSaveTargetTag false)).success = true) →
      (∃ msg, (performAutoSave E ⟨store, none⟩).1 = some msg) ∧
      (∃ pre, (performAutoSave E ⟨store, none⟩).2.2 =
        pre ++ [.pushTag store.autoSaveTargetTag false,
          .tagDelete store.autoSaveTargetTag])) := by
  refine ⟨?_, ?_, ?_, ?_⟩
  · intro E tagName st f t m cm hmem
    obtain ⟨store, lock⟩ := st
    cases lock with
    | some op => simp [overwriteRoute] at hmem
    | none =>
      have hres := resolveOverwriteCommit_no_tagCreate E
        ("Overwrite save: " ++ tagName) "创建覆盖提交失败: " (branchOr store) f t m cm
      have htl := overwriteTail_tagCreate E tagName (overwriteDescription E tagName)
      by_cases hrt : E.readThrows = true
      · simp [overwriteRoute, hrt] at hmem
      · by_cases hauth : store.is_authorized = true
        · rcases hr : resolveOverwriteCommit E ("Overwrite save: " ++ tagName)
            "创建覆盖提交失败: " (branchOr store) with ⟨exit1, tr⟩
          rw [hr] at hres
          cases exit1 with
          | threw m2 =>
            simp only [overwriteRoute, hr] at hmem
            simp [hrt, hauth] at hmem
            exact absurd hmem hres
          | ret hash =>
            rcases ht2 : overwriteTail E tagName (overwriteDescription E tagName) hash
              with ⟨exit2, tr2⟩
            have htl2 := htl hash f t m cm
            rw [ht2] at htl2
            cases exit2 with
            | threw m2 =>
              simp only [overwriteRoute, hr, ht2] at hmem
              simp [hrt, hauth] at hmem
              rcases hmem with h | h
              · exact absurd h hres
              · exact htl2 h
            | ret u =>
              simp only [overwriteRoute, hr, ht2] at hmem
              rcases hls : store.last_save with _ | ls
              · rw [hls] at hmem
                simp [hrt, hauth] at hmem
                rcases hmem with h | h
                · exact absurd h hres
                · exact htl2 h
              · rw [hls] at hmem
                by_cases hlst : ls.tag = tagName
                · by_cases hst : E.saveThrows = true
                  · simp [hrt, hauth, hlst, hst] at hmem
                    rcases hmem with h | h
                    · exact absurd h hres
                    · exact htl2 h
                  · simp [hrt, hauth, hlst, hst] at hmem
                    rcases hmem with h | h
                    · exact absurd h hres
                    · exact htl2 h
                · simp [hrt, hauth, hlst] at hmem
                  rcases hmem with h | h
                  · exact absurd h hres
                  · exact htl2 h
        · simp [overwriteRoute, hrt, hauth] at hmem
  · intro E tagName store hauth hrt h1 h2 h3 h4 h5
    obtain ⟨tr, htr⟩ := resolveOverwriteCommit_ret E ("Overwrite save: " ++ tagName)
      "创建覆盖提交失败: " (branchOr store) h1 (h2 _) h3
    have htail := overwriteTail_pushFail E tagName (overwriteDescription E tagName)
      (jsTrim (E.git (.revParse "HEAD")).stdout) h4 h5
    have hroute : overwriteRoute E tagName ⟨store, none⟩ =
        (.fail ("覆盖存档失败: " ++ ("推送新标签 " ++ tagName ++ " 到远程失败: " ++
            (E.git (.pushTag tagName false)).stderr)),
          ⟨store, none⟩,
          GitCmd.tagInfo tagName :: (tr ++
            [.tagDelete tagName, .pushDeleteTag tagName,
             .tagCreate false tagName ((overwriteDescription E tagName) ++
               "\nLast Updated: " ++ E.nowISO)
               (some (jsTrim (E.git (.revParse "HEAD")).stdout)),
             .pushTag tagName false, .tagDelete tagName])) := by
      simp [overwriteRoute, htr, htail, hrt, hauth]
    refine ⟨⟨_, by rw [hroute]⟩, ?_⟩
    refine ⟨GitCmd.tagInfo tagName :: (tr ++
      [.tagDelete tagName, .pushDeleteTag tagName,
       .tagCreate false tagName ((overwriteDescription E tagName) ++
         "\nLast Updated: " ++ E.nowISO)
         (some (jsTrim (E.git (.revParse "HEAD")).stdout))]), ?_⟩
    rw [hroute]
    simp
  · intro E st f t m cm hmem
    obtain ⟨store, lock⟩ := st
    cases lock with
    | some op => simp [performAutoSave] at hmem
    | none =>
      have hres := resolveOverwriteCommit_no_tagCreate E
        ("Auto Save Overwrite: " ++ store.autoSaveTargetTag)
        "创建自动存档提交失败: " (branchOr store) f t m cm
      have htl := overwriteTail_tagCreate E store.autoSaveTargetTag
        (overwriteDescription E store.autoSaveTargetTag)
      by_cases hrt : E.readThrows = true
      · simp [performAutoSave, hrt] at hmem
      · by_cases hcond : store.is_authorized = true ∧ store.autoSaveEnabled = true ∧
          store.autoSaveTargetTag ≠ ""
        · rcases hr : resolveOverwriteCommit E
            ("Auto Save Overwrite: " ++ store.autoSaveTargetTag)
            "创建自动存档提交失败: " (branchOr store) with ⟨exit1, tr⟩
          rw [hr] at hres
          cases exit1 with
          | threw m2 =>
            simp only [performAutoSave, hr] at hmem
            simp [hrt, hcond] at hmem
            exact absurd hmem hres
          | ret hash =>
            rcases ht2 : overwriteTail E store.autoSaveTargetTag
              (overwriteDescription E store.autoSaveTargetTag) hash with ⟨exit2, tr2⟩
            have htl2 := htl hash f t m cm
            rw [ht2] at htl2
            cases exit2 with
            | threw m2 =>
              simp only [performAutoSave, hr, ht2] at hmem
              simp [hrt, hcond] at hmem
              rcases hmem with h | h
              · exact absurd h hres
              · exact htl2 h
            | ret u =>
              simp only [performAutoSave, hr, ht2] at hmem
              simp [hrt, hcond] at hmem
              rcases hmem with h | h
              · exact absurd h hres
              · exact htl2 h
        · simp [performAutoSave, hrt, hcond] at hmem
  · intro E store hauth hen htag hrt h1 h2 h3 h4 h5
    obtain ⟨tr, htr⟩ := resolveOverwriteCommit_ret E
      ("Auto Save Overwrite: " ++ store.autoSaveTargetTag)
      "创建自动存档提交失败: " (branchOr store) h1 (h2 _) h3
    have htail := overwriteTail_pushFail E store.autoSaveTargetTag
      (overwriteDescription E store.autoSaveTargetTag)
      (jsTrim (E.git (.revParse "HEAD")).stdout) h4 h5
    have hroute : performAutoSave E ⟨store, none⟩ =
        (some ("推送新标签 " ++ store.autoSaveTargetTag ++ " 到远程失败: " ++
            (E.git (.pushTag store.autoSaveTargetTag false)).stderr),
          ⟨store, none⟩,
          GitCmd.tagInfo store.autoSaveTargetTag :: (tr ++
            [.tagDelete store.autoSaveTargetTag, .pushDeleteTag store.autoSaveTargetTag,
             .tagCreate false store.autoSaveTargetTag
               ((overwriteDescription E store.autoSaveTargetTag) ++
                 "\nLast Updated: " ++ E.nowISO)
               (some (jsTrim (E.git (.revParse "HEAD")).stdout)),
             .pushTag store.autoSaveTargetTag false,
             .tagDelete store.autoSaveTargetTag])) := by
      simp [performAutoSave, htr, htail, hrt, hauth, hen, htag]
    refine ⟨⟨_, by rw [hroute]⟩, ?_⟩
    refine ⟨GitCmd.tagInfo store.autoSaveTargetTag :: (tr ++
      [.tagDelete store.autoSaveTargetTag, .pushDeleteTag store.autoSaveTargetTag,
       .tagCreate false store.autoSaveTargetTag
         ((overwriteDescription E store.autoSaveTargetTag) ++
           "\nLast Updated: " ++ E.nowISO)
         (some (jsTrim (E.git (.revParse "HEAD")).stdout))]), ?_⟩
    rw [hroute]
    simp

/-- Witness for C4: the manual overwrite against a concrete failing-push
environment reports failure with the rollback deletion last in its trace. -/
theorem C4_overwrite_identity_rollback_witness :
    (∃ msg, (overwriteRoute
      { git := fun c =>
          match c with
          | .pushTag _ _ => ⟨false, "", "rejected"⟩
          | .status => ⟨true, "", ""⟩
          | _ => ⟨true, "x", ""⟩
        now := 0, nowISO := "Z", parseDate := fun _ => none,
        readThrows := false, saveThrows := false, throwMsg := "b" }
      "save_1_bg" ⟨{ is_authorized := true }, none⟩).1 = .fail msg) ∧
    (∃ pre, (overwriteRoute
      { git := fun c =>
          match c with
          | .pushTag _ _ => ⟨false, "", "rejected"⟩
          | .status => ⟨true, "", ""⟩
          | _ => ⟨true, "x", ""⟩
        now := 0, nowISO := "Z", parseDate := fun _ => none,
        readThrows := false, saveThrows := false, throwMsg := "b" }
      "save_1_bg" ⟨{ is_authorized := true }, none⟩).2.2 =
        pre ++ [.pushTag "save_1_bg" false, .tagDelete "save_1_bg"]) :=
  C4_overwrite_identity_rollback.2.1 _ "save_1_bg" { is_authorized := true }
    rfl rfl rfl (fun _ => Or.inl rfl) rfl (fun _ _ => rfl) (by decide)

/-- Witness for C8 at a concrete environment and state. -/
theorem C8_autosave_gating_witness :
    performAutoSave
      { git := fun _ => ⟨true, "", ""⟩, now := 0, nowISO := "Z",
        parseDate := fun _ => none, readThrows := false, saveThrows := false,
        throwMsg := "boom" }
      ⟨{ is_authorized := true }, some "create_save"⟩ =
      (none, ⟨{ is_authorized := true }, some "create_save"⟩, []) ∧
    (performAutoSave
      { git := fun _ => ⟨true, "", ""⟩, now := 0, nowISO := "Z",
        parseDate := fun _ => none, readThrows := false, saveThrows := false,
        throwMsg := "boom" }
      ⟨{ is_authorized := false }, none⟩).2.2 = [] := by
  constructor
  · exact C8_autosave_gating.1 _ _ _
  · exact (C8_autosave_gating.2 _ _ (by simp)).1

/-- The continuation of createSave always leaves the lock released. -/
theorem createSaveRest_lock (E : Env) (name description tagName branchToPush : String)
    (commitNeeded : Bool) (store : Config) (tr : List GitCmd) :
    (createSaveRest E name description tagName branchToPush commitNeeded store tr).2.1.lock
      = none := by
  simp only [createSaveRest]
  split_ifs <;> rfl

set_option maxHeartbeats 3200000 in
/-- C3: while a mutating operation holds the lock (`currentOperation` non-null),
every modelled entry point is rejected immediately with a busy response naming
the in-flight operation and no state change; and every modelled operation
resets the lock to null when it finishes, on every path including the
exception exits (the env throw flags cover config read/write throws, and
`listSaves` the date-parse throw). -/
theorem C3_operation_lock :
    (∀ (E : Env) (name description : String) (store : Config) (op : String),
      createRoute E name description ⟨store, some op⟩ =
        (.busy ("正在进行操作: " ++ op), ⟨store, some op⟩, [])) ∧
    (∀ (E : Env) (tag : String) (store : Config) (op : String),
      loadRoute E tag ⟨store, some op⟩ =
        (.busy ("正在进行操作: " ++ op), ⟨store, some op⟩, [])) ∧
    (∀ (E : Env) (tag : String) (store : Config) (op : String),
      deleteRoute E tag ⟨store, some op⟩ =
        (.busy ("正在进行操作: " ++ op), ⟨store, some op⟩, [])) ∧
    (∀ (E : Env) (o n d : String) (store : Config) (op : String),
      renameRoute E o n d ⟨store, some op⟩ =
        (.busy ("正在进行操作: " ++ op), ⟨store, some op⟩, [])) ∧
    (∀ (E : Env) (t1 t2 : String) (store : Config) (op : String),
      diffRoute E t1 t2 ⟨store, some op⟩ =
        (.busy ("正在进行操作: " ++ op), ⟨store, some op⟩, [])) ∧
    (∀ (E : Env) (store : Config) (op : String),
      listRoute E ⟨store, some op⟩ =
        (.busy ("正在进行操作: " ++ op), ⟨store, some op⟩, [])) ∧
    (∀ (E : Env) (store : Config) (op : String),
      applyStashRoute E ⟨store, some op⟩ =
        (.busy ("正在进行操作: " ++ op), ⟨store, some op⟩, [])) ∧
    (∀ (E : Env) (store : Config) (op : String),
      discardStashRoute E ⟨store, some op⟩ =
        (.busy ("正在进行操作: " ++ op), ⟨store, some op⟩, [])) ∧
    (∀ (E : Env) (tag : String) (store : Config) (op : String),
      overwriteRoute E tag ⟨store, some op⟩ =
        (.busy ("正在进行操作: " ++ op), ⟨store, some op⟩, [])) ∧
    (∀ (E : Env) (store : Config) (op : String),
      performAutoSave E ⟨store, some op⟩ = (none, ⟨store, some op⟩, [])) ∧
    (∀ (E : Env) (name description : String) (st : St),
      (createSave E name description st).2.1.lock = none) ∧
    (∀ (E : Env) (tag : String) (st : St), (loadSave E tag st).2.1.lock = none) ∧
    (∀ (E : Env) (st : St), (listSaves E st).2.1.lock = none) ∧
    (∀ (E : Env) (tag : String) (st : St), (deleteSave E tag st).2.1.lock = none) ∧
    (∀ (E : Env) (o n d : String) (st : St),
      (renameSave E o n d st).2.1.lock = none) ∧
    (∀ (E : Env) (r1 r2 : String) (st : St),
      (getSaveDiff E r1 r2 st).2.1.lock = none) ∧
    (∀ (E : Env) (tag : String) (store : Config),
      (overwriteRoute E tag ⟨store, none⟩).2.1.lock = none) ∧
    (∀ (E : Env) (store : Config),
      (performAutoSave E ⟨store, none⟩).2.1.lock = none) := by
  refine ⟨fun _ _ _ _ _ => rfl, fun _ _ _ _ => rfl, fun _ _ _ _ => rfl,
    fun _ _ _ _ _ _ => rfl, fun _ _ _ _ _ => rfl, fun _ _ _ => rfl,
    fun _ _ _ => rfl, fun _ _ _ => rfl, fun _ _ _ _ => rfl, fun _ _ _ => rfl,
    ?_, ?_, ?_, ?_, ?_, ?_, ?_, ?_⟩
  · intro E name description st
    simp only [createSave]
    split_ifs <;> first | rfl | apply createSaveRest_lock
  · intro E tag st
    simp only [loadSave]
    split_ifs <;> rfl
  · intro E st
    simp only [listSaves]
    split_ifs <;> try rfl
    split <;> rfl
  · intro E tag st
    rcases hcs : st.store.current_save with _ | cs <;> simp only [deleteSave, hcs] <;>
      split_ifs <;> rfl
  · intro E o n d st
    rcases hcs : st.store.current_save with _ | cs <;> simp only [renameSave, hcs] <;>
      split_ifs <;> rfl
  · intro E r1 r2 st
    simp only [getSaveDiff]
    split_ifs <;> rfl
  · intro E tag store
    simp only [overwriteRoute]
    repeat' split
    all_goals rfl
  · intro E store
    simp only [performAutoSave]
    repeat' split
    all_goals rfl

/-- Witness for C3: a concrete busy rejection naming the in-flight operation,
and a lock release on a thrown config-read error. -/
theorem C3_operation_lock_witness :
    createRoute
      { git := fun _ => ⟨true, "", ""⟩, now := 0, nowISO := "Z",
        parseDate := fun _ => none, readThrows := false, saveThrows := false,
        throwMsg := "b" } "n" "d" ⟨{}, some "load_save"⟩ =
      (.busy "正在进行操作: load_save", ⟨{}, some "load_save"⟩, []) ∧
    (createSave
      { git := fun _ => ⟨true, "", ""⟩, now := 0, nowISO := "Z",
        parseDate := fun _ => none, readThrows := true, saveThrows := false,
        throwMsg := "ENOENT" } "n" "d" ⟨{}, none⟩).2.1.lock = none := by
  constructor
  · exact C3_operation_lock.1 _ "n" "d" {} "load_save"
  · exact C3_operation_lock.2.2.2.2.2.2.2.2.2.2.1 _ "n" "d" ⟨{}, none⟩

/-- Shape of a try-block success: a result the try block itself returns never
carries an `error` field, and on the non-piped path it is always a success
(nonzero exits of `execPromise` throw, so they reach the catch instead). -/
theorem runTryBody_ok_shape (command : String) (opts : RunOpts) (E : ExecEnv)
    (r : GitRes) (flag : Bool) (h : runTryBody command opts E = (.ok r, flag)) :
    r.error = none ∧ (opts.input = none → r.success = true) := by
  simp only [runTryBody] at h
  repeat' split at h
  all_goals rw [Prod.mk.injEq] at h
  all_goals obtain ⟨h1, h2⟩ := h
  all_goals first
    | exact Except.noConfusion h1
    | (injection h1 with h1; subst h1; simp_all)

/-- C9 (amended): `runGitCommand` never raises — for every command, options
and environment behaviour (config-read throws, subprocess throws, failing
credential-URL restores included) it returns a result; on success the result
carries no error field; and on the non-piped path every failure carries an
`error` message.  The one exception the claim missed is the piped-input path:
a nonzero exit there resolves `{success:false, stdout, stderr}` without an
`error` field (see `C9_counterexample`). -/
theorem C9_runGitCommand_never_throws (command : String) (opts : RunOpts)
    (E : ExecEnv) :
    ∃ r, runGitCommand command opts E = .ok r ∧
      (r.success = true → r.error = none) ∧
      (opts.input = none → r.success = false → r.error.isSome = true) := by
  unfold runGitCommand
  match h : runTryBody command opts E with
  | (.ok r, flag) =>
    obtain ⟨he, hs⟩ := runTryBody_ok_shape command opts E r flag h
    exact ⟨r, rfl, fun _ => he, fun hi hf => absurd (hs hi) (by simp [hf])⟩
  | (.error e, flag) =>
    exact ⟨_, rfl, fun hcon => absurd hcon (by simp), fun _ _ => rfl⟩

/-- Witness for C9: concrete environments on both paths produce `.ok` results
of the stated shapes. -/
theorem C9_runGitCommand_never_throws_witness :
    (∃ r, runGitCommand "git status --porcelain" { cwd := none, input := none }
        { readConfigR := .error ⟨"ENOENT", "", ""⟩, getRemoteUrl := .ok "",
          setTokenUrl := .ok (), mainExec := .ok ("", ""),
          restoreAfterSuccess := .ok (), restoreInCatch := .ok (),
          restoreInFinally := .ok (), spawnRun := .ok (0, "", "") } = .ok r ∧
      (r.success = true → r.error = none) ∧
      (({ cwd := none, input := none } : RunOpts).input = none →
        r.success = false → r.error.isSome = true)) :=
  C9_runGitCommand_never_throws "git status --porcelain" _ _

/-- Concrete run with piped input whose subprocess exits nonzero. -/
def execEnvC9 : ExecEnv :=
  { readConfigR := .ok {}, getRemoteUrl := .ok "", setTokenUrl := .ok (),
    mainExec := .ok ("", ""), restoreAfterSuccess := .ok (),
    restoreInCatch := .ok (), restoreInFinally := .ok (),
    spawnRun := .ok (1, "", "fatal: bad object") }

/-- C9 counterexample: on the piped-input path a nonzero subprocess exit
resolves to `{success:false, stdout, stderr}` with NO `error` field (index.js
line 192), so not every failure result matches the claimed
`{success:false, error, stdout, stderr}` shape. -/
theorem C9_counterexample :
    runGitCommand "git hash-object --stdin" { cwd := none, input := some "x" }
      execEnvC9 =
      .ok { success := false, stdout := "", stderr := "fatal: bad object",
            error := none } := by
  rfl

end CloudSaves
